import Mathlib

/-!
Shallow embedding of `src/server/app_local.py` (the ducknest backend).

Strings are modelled as `List Char`; the Python string operations the code
uses (`find`, `rfind`, slicing, `split`, `strip`, `in`, `replace`) are
defined below with CPython semantics for non-empty separators.  External
collaborators (the Groq HTTP call, `json.loads`, the ElevenLabs call, the
Supabase client) are passed in as parameters: an exception raised by an
external call is modelled as a `PyResult.exn` value, and `json.loads` is a
parameter `loads : List Char → Option J` (`none` models `JSONDecodeError`,
`some j` a successful parse).
-/

/-- Python whitespace for `str.strip()` (ASCII subset, which covers every
input these proofs use). -/
def pyIsSpace (c : Char) : Bool :=
  c = ' ' || c = '\t' || c = '\n' || c = '\r' || c = '\x0b' || c = '\x0c'

/-- Python `s.strip()`: drop leading and trailing whitespace. -/
def pystrip (s : List Char) : List Char :=
  ((s.dropWhile pyIsSpace).reverse.dropWhile pyIsSpace).reverse

/-- Index of the first occurrence of `c` in `s`, if any. -/
def findIdx (c : Char) : List Char → Option Nat
  | [] => none
  | x :: rest => if x = c then some 0 else (findIdx c rest).map (· + 1)

/-- Python `s.find(c)`: first index of `c`, `-1` when absent. -/
def pyfind (s : List Char) (c : Char) : Int :=
  match findIdx c s with
  | some n => (n : Int)
  | none => -1

/-- Python `s.rfind(c)`: last index of `c`, `-1` when absent. -/
def pyrfind (s : List Char) (c : Char) : Int :=
  match findIdx c s.reverse with
  | some n => ((s.length - 1 - n : Nat) : Int)
  | none => -1

/-- Python slice `s[i:j]` for non-negative bounds. -/
def pyslice (s : List Char) (i j : Nat) : List Char :=
  (s.take j).drop i

/-- Does `s` start with `p`? -/
def listStartsWith (p s : List Char) : Bool :=
  match p, s with
  | [], _ => true
  | _ :: _, [] => false
  | a :: p, b :: s => a = b && listStartsWith p s

/-- Python `pat in s` (substring containment, `pat` non-empty). -/
def hasSubstr (s pat : List Char) : Bool :=
  match s with
  | [] => listStartsWith pat []
  | _ :: rest => listStartsWith pat s || hasSubstr rest pat

/-- Fuel-driven worker for Python `s.split(sep)` with a non-empty `sep`:
non-overlapping, leftmost-first.  `fuel` only needs to be `≥ s.length`. -/
def splitFuel (sep : List Char) : Nat → List Char → List Char → List (List Char)
  | _, [], acc => [acc]
  | 0, s, acc => [acc ++ s]
  | Nat.succ fuel, c :: rest, acc =>
    if listStartsWith sep (c :: rest) then
      acc :: splitFuel sep fuel (rest.drop (sep.length - 1)) []
    else
      splitFuel sep fuel rest (acc ++ [c])

/-- Python `s.split(sep)` for a non-empty separator. -/
def pysplit (s sep : List Char) : List (List Char) :=
  splitFuel sep s.length s []

/-- Fuel-driven count of non-overlapping occurrences of `sep` in `s`,
scanning exactly like `splitFuel`. -/
def countFuel (sep : List Char) : Nat → List Char → Nat
  | _, [] => 0
  | 0, _ => 0
  | Nat.succ fuel, c :: rest =>
    if listStartsWith sep (c :: rest) then
      countFuel sep fuel (rest.drop (sep.length - 1)) + 1
    else
      countFuel sep fuel rest

/-- Number of non-overlapping occurrences of `sep` in `s` (so the number of
fence markers when `sep` is the triple backtick). -/
def countOcc (s sep : List Char) : Nat :=
  countFuel sep s.length s

/-- Python `text.replace(old, new)` for a single-character pattern. -/
def pyreplaceChar (s : List Char) (old new : Char) : List Char :=
  s.map (fun c => if c = old then new else c)

/-- The fence marker, Python literal `"``` "` without the space
(three backticks). -/
def fence : List Char := ['\x60', '\x60', '\x60']

/-- The labeled fence opener, Python literal of three backticks followed by
`json`. -/
def fenceJson : List Char := ['\x60', '\x60', '\x60', 'j', 's', 'o', 'n']

/-- An exception value, as far as the handlers in `app_local.py`
distinguish them. -/
inductive PyExn where
  | requestException (msg : List Char)
  | nameError (msg : List Char)
  | otherError (msg : List Char)
deriving DecidableEq, Repr

/-- The text of an exception, as interpolated by the f-strings in the error
payloads. -/
def pyExnMsg : PyExn → List Char
  | .requestException m => m
  | .nameError m => m
  | .otherError m => m

/-- Result of running a Python expression: a value or a raised exception. -/
inductive PyResult (α : Type) where
  | val (a : α)
  | exn (e : PyExn)
deriving DecidableEq, Repr

/-- Outcome of the response-parsing block, `app_local.py` lines 126-181:
either a parsed recommendation with its trailing explanation, or the
parse-error payload `("error": "Failed to parse model response",
"raw_response": raw)` together with its HTTP status. -/
inductive ParseOutcome (J : Type) where
  | ok (recommendation_data : J) (explanation_text : List Char)
  | parseError (raw_response : List Char) (status : Nat)
deriving DecidableEq, Repr

/-- The slice `model_response[json_start:json_end]` with
`json_start = model_response.find(chr(123))` and
`json_end = model_response.rfind(chr(125)) + 1` (lines 128-132): the span
from the first opening brace to the last closing brace. -/
def brace_span (s : List Char) : List Char :=
  pyslice s (pyfind s '\x7b').toNat (pyrfind s '\x7d' + 1).toNat

/-- The suffix `model_response[json_end:].strip()` (line 136): the explanation text
returned by the plain-braces strategy. -/
def brace_explanation (s : List Char) : List Char :=
  pystrip (s.drop (pyrfind s '\x7d' + 1).toNat)

/-- The expression `model_response.split("three backticks + json")[1].split(fence)[0].strip()`
(line 145): interior of the fenced block labeled as JSON. -/
def labeled_fence_content (s : List Char) : List Char :=
  pystrip ((pysplit ((pysplit s fenceJson).getD 1 []) fence).getD 0 [])

/-- The expression `model_response.split(fence)[1].split(fence)[0].strip()` (line 160):
interior of the first generic fenced block. -/
def any_fence_content (s : List Char) : List Char :=
  pystrip ((pysplit ((pysplit s fence).getD 1 []) fence).getD 0 [])

/-- Lines 149-153 and 164-168: `explanation_parts = model_response.split(fence)`;
the part after the closing fence when there are more than two parts, else
the empty string. -/
def fence_explanation (s : List Char) : List Char :=
  if 2 < (pysplit s fence).length then pystrip ((pysplit s fence).getD 2 []) else []

/-- The parsing block of `query_groq`, `app_local.py` lines 126-181.
`loads` models `json.loads` (`none` = `JSONDecodeError`, which line 178
catches and converts into the parse-error payload).  The priority chain is
exactly the source's: the first-brace/last-brace span when line 131's test
holds, otherwise the fenced block labeled as JSON, otherwise any fenced
block, otherwise (line 176) the parse-error payload. -/
def query_groq_parse {J : Type} (loads : List Char → Option J) (s : List Char) :
    ParseOutcome J :=
  if pyfind s '\x7b' ≥ 0 ∧ pyrfind s '\x7d' + 1 > pyfind s '\x7b' then
    match loads (brace_span s) with
    | some parsed_json => .ok parsed_json (brace_explanation s)
    | none => .parseError s 500
  else if hasSubstr s fenceJson then
    match loads (labeled_fence_content s) with
    | some parsed_json => .ok parsed_json (fence_explanation s)
    | none => .parseError s 500
  else if hasSubstr s fence then
    match loads (any_fence_content s) with
    | some parsed_json => .ok parsed_json (fence_explanation s)
    | none => .parseError s 500
  else
    .parseError s 500

/-- Function `load_housing_data`, lines 33-43.  `storageRead` is the outcome of
`supabase.table('houses').select('*').execute()`.  On an exception the
handler executes `return DUMMY_HOUSING_DATA`; but `DUMMY_HOUSING_DATA` has
no binding in the module (its definition, lines 321-475, is commented out),
so CPython raises `NameError` inside the `except` block and that exception
propagates to the caller. -/
def load_housing_data {D : Type} (storageRead : PyResult D) : PyResult D :=
  match storageRead with
  | .val d => .val d
  | .exn _ =>
      .exn (.nameError ("name DUMMY_HOUSING_DATA is not defined".toList))

/-- The expression `text.replace("\n", " ").strip()` — line 200 of `generate_audio`. -/
def generate_audio_clean_text (text : List Char) : List Char :=
  pystrip (pyreplaceChar text '\n' ' ')

/-- The ellipsis marker appended on truncation (line 204). -/
def ellipsis : List Char := ['.', '.', '.']

/-- Lines 200-204 of `generate_audio`: the text actually submitted to the
ElevenLabs endpoint — the cleaned text, truncated to its first 5000
characters plus an ellipsis when the cleaned text is longer than 5000. -/
def generate_audio_submitted_text (text : List Char) : List Char :=
  if 5000 < (generate_audio_clean_text text).length then
    (generate_audio_clean_text text).take 5000 ++ ellipsis
  else
    generate_audio_clean_text text

/-- The dictionary `generate_audio` returns on success (lines 244-247). -/
structure AudioSuccess where
  audio_base64 : List Char
  audio_path : List Char
deriving DecidableEq, Repr

/-- Function `generate_audio`, lines 190-254.  `tts` is the outcome of the whole
external part (the ElevenLabs POST, the local file write and the base64
encoding): the `except` clauses at lines 249-254 turn any exception into
`None`, and a missing `ELEVENLABS_API_KEY` returns `None` before any call
is made.  On line 224 the request carries `generate_audio_submitted_text
text` as its `text` field, so `tts` is applied to exactly that string. -/
def generate_audio (apiKey : Option (List Char))
    (tts : List Char → PyResult AudioSuccess) (text : List Char) :
    Option AudioSuccess :=
  if apiKey.isNone then none
  else
    match tts (generate_audio_submitted_text text) with
    | .val a => some a
    | .exn _ => none

/-- Function `store_response_in_db`, lines 256-274.  `insert` is the outcome of the
Supabase insert together with line 271's id extraction (`data[0]['id'] if
result.data else None`); any exception becomes `None` (line 272-274). -/
def store_response_in_db (insert : PyResult (Option Nat)) : Option Nat :=
  match insert with
  | .val x => x
  | .exn _ => none

/-- Outcome of `query_groq` (lines 66-188): the success dictionary of lines
138-141/155-158/170-173, or an `("error": ..., status)` tuple, whose
optional `raw_response` field is present exactly for parse errors. -/
inductive QueryGroqOutcome (J : Type) where
  | success (recommendation_data : J) (explanation_text : List Char)
  | failure (error : List Char) (raw_response : Option (List Char)) (status : Nat)
deriving DecidableEq, Repr

/-- One external interaction of a request, for the call log. -/
inductive CallEvent where
  | storageRead
  | groqPost
  | ttsPost
  | storeWrite
deriving DecidableEq, Repr

/-- The environment a request runs against: credentials and the outcomes of
the external calls.  `post` is the model reply text extracted from the Groq
HTTP response (lines 118-123), or the exception that part raised; `loads`
models `json.loads`; `tts` and `insert` are as in `generate_audio` and
`store_response_in_db`. -/
structure Env (J : Type) where
  groqApiKey : Option (List Char)
  elevenApiKey : Option (List Char)
  storageHouses : PyResult (List Char)
  post : PyResult (List Char)
  loads : List Char → Option J
  tts : List Char → PyResult AudioSuccess
  insert : List Char → J → List Char → Option (List Char) → PyResult (Option Nat)

/-- Python `" ".join(sentences)` (lines 79 and 288). -/
def joinSpaces (sentences : List (List Char)) : List Char :=
  (sentences.intersperse [' ']).flatten

/-- Function `query_groq`, lines 66-188, with a log of the external calls it makes.
A missing `GROQ_API_KEY` returns the configuration error before anything
else.  A storage-read exception makes `load_housing_data` raise `NameError`
(see `load_housing_data`), which line 186 catches as the generic
"Unexpected error".  A `requests` exception from the POST is caught at line
183; any other exception from that part at line 186.  A successful reply is
fed to the parsing block `query_groq_parse`; its parse-error payload is the
tuple of lines 176/181. -/
def query_groq {J : Type} (env : Env J) (sentences : List (List Char)) :
    QueryGroqOutcome J × List CallEvent :=
  if env.groqApiKey.isNone then
    (.failure ("API key configuration error".toList) none 500, [])
  else
    match load_housing_data env.storageHouses with
    | .exn e =>
        (.failure ("Unexpected error: ".toList ++ pyExnMsg e) none 500,
         [CallEvent.storageRead])
    | .val _ =>
        match env.post with
        | .exn (.requestException m) =>
            (.failure ("Error communicating with language model API: ".toList ++ m)
               none 500, [CallEvent.storageRead, CallEvent.groqPost])
        | .exn e =>
            (.failure ("Unexpected error: ".toList ++ pyExnMsg e) none 500,
             [CallEvent.storageRead, CallEvent.groqPost])
        | .val model_response =>
            (match query_groq_parse env.loads model_response with
             | .ok j ex => .success j ex
             | .parseError raw st =>
                 .failure ("Failed to parse model response".toList) (some raw) st,
             [CallEvent.storageRead, CallEvent.groqPost])

/-- Body of the HTTP response of `/recommend`: the error payload
(`error` plus optional `raw_response`) of the failure branches, or the
combined payload of lines 308-313. -/
inductive RespBody (J : Type) where
  | errorBody (error : List Char) (raw_response : Option (List Char))
  | okBody (text_response : J) (explanation_text : List Char)
      (audio_response : Option (List Char)) (response_id : Option Nat)
deriving DecidableEq, Repr

/-- An HTTP response: body plus status code. -/
structure HttpResponse (J : Type) where
  body : RespBody J
  status : Nat
deriving DecidableEq, Repr

/-- The `/recommend` endpoint, `recommend_housing`, lines 276-319, returning
the HTTP response together with the log of external calls the request made.
`sentencesField` is the `sentences` field of the request's JSON body
(`none` when the key is missing; line 283 then defaults to the empty list).
An empty list returns the 400 error before any external call.  An error
tuple from `query_groq` is returned as-is (lines 294-295).  Otherwise the
handler synthesizes audio for the explanation only, stores the response
(with the audio path when audio succeeded), and returns the combined
payload with Flask's default 200 status. -/
def recommend_housing {J : Type} (env : Env J)
    (sentencesField : Option (List (List Char))) :
    HttpResponse J × List CallEvent :=
  let sentences := sentencesField.getD []
  if sentences.isEmpty then
    (⟨.errorBody ("No input sentences provided".toList) none, 400⟩, [])
  else
    match query_groq env sentences with
    | (.failure msg raw st, evs) => (⟨.errorBody msg raw, st⟩, evs)
    | (.success recommendation_data explanation_text, evs) =>
        let audio_result := generate_audio env.elevenApiKey env.tts explanation_text
        let audioEvs := if env.elevenApiKey.isNone then [] else [CallEvent.ttsPost]
        let audio_path := audio_result.map AudioSuccess.audio_path
        let response_id := store_response_in_db
          (env.insert (joinSpaces sentences) recommendation_data explanation_text
            audio_path)
        (⟨.okBody recommendation_data explanation_text
            (audio_result.map AudioSuccess.audio_base64) response_id, 200⟩,
         evs ++ audioEvs ++ [CallEvent.storeWrite])

/-! ## Helper lemmas -/

theorem findIdx_eq_none_of_not_mem {c : Char} {s : List Char} (h : c ∉ s) :
    findIdx c s = none := by
  induction s with
  | nil => rfl
  | cons a t ih =>
      have ha : a ≠ c := fun hac => h (hac ▸ List.mem_cons_self a t)
      have ht : c ∉ t := fun hct => h (List.mem_cons_of_mem a hct)
      simp [findIdx, ha, ih ht]

theorem pyfind_eq_neg_one {c : Char} {s : List Char} (h : c ∉ s) :
    pyfind s c = -1 := by
  unfold pyfind
  rw [findIdx_eq_none_of_not_mem h]

theorem splitFuel_length (sep : List Char) :
    ∀ (fuel : Nat) (s acc : List Char),
      (splitFuel sep fuel s acc).length = countFuel sep fuel s + 1 := by
  intro fuel
  induction fuel with
  | zero =>
      intro s acc
      cases s <;> simp [splitFuel, countFuel]
  | succ n ih =>
      intro s acc
      cases s with
      | nil => simp [splitFuel, countFuel]
      | cons c rest =>
          simp only [splitFuel, countFuel]
          split
          · simp [ih]
          · exact ih rest _

theorem pysplit_length (s sep : List Char) :
    (pysplit s sep).length = countOcc s sep + 1 :=
  splitFuel_length sep s.length s []

theorem fence_explanation_eq_nil {s : List Char} (h : countOcc s fence < 2) :
    fence_explanation s = [] := by
  unfold fence_explanation
  rw [if_neg]
  rw [pysplit_length]
  omega

/-- Lemma: `query_groq_parse` yields the parse-error payload whenever the strategy
it selects fails to parse. -/
theorem query_groq_parse_none {J : Type} (loads : List Char → Option J)
    (s : List Char)
    (hb : pyfind s '\x7b' ≥ 0 ∧ pyrfind s '\x7d' + 1 > pyfind s '\x7b' →
      loads (brace_span s) = none)
    (hj : hasSubstr s fenceJson = true → loads (labeled_fence_content s) = none)
    (hf : hasSubstr s fence = true → loads (any_fence_content s) = none) :
    query_groq_parse loads s = .parseError s 500 := by
  unfold query_groq_parse
  by_cases hcond : pyfind s '\x7b' ≥ 0 ∧ pyrfind s '\x7d' + 1 > pyfind s '\x7b'
  · rw [if_pos hcond, hb hcond]
  · rw [if_neg hcond]
    by_cases h1 : hasSubstr s fenceJson = true
    · rw [if_pos h1, hj h1]
    · rw [if_neg h1]
      by_cases h2 : hasSubstr s fence = true
      · rw [if_pos h2, hf h2]
      · rw [if_neg h2]

theorem mem_pystrip {x : Char} {s : List Char} (h : x ∈ pystrip s) : x ∈ s := by
  unfold pystrip at h
  rw [List.mem_reverse] at h
  have h1 := (List.dropWhile_sublist (l := (s.dropWhile pyIsSpace).reverse)
    (p := pyIsSpace)).subset h
  rw [List.mem_reverse] at h1
  exact (List.dropWhile_sublist (l := s) (p := pyIsSpace)).subset h1

theorem newline_not_mem_clean_text (text : List Char) :
    '\n' ∉ generate_audio_clean_text text := by
  intro h
  have h1 : '\n' ∈ pyreplaceChar text '\n' ' ' := mem_pystrip h
  unfold pyreplaceChar at h1
  rw [List.mem_map] at h1
  obtain ⟨a, -, ha⟩ := h1
  by_cases hc : a = '\n'
  · simp [hc] at ha
  · simp [hc] at ha

/-! ## Concrete witness data -/

/-- A concrete stand-in for `json.loads`, used only by witnesses and
counterexamples: it accepts (after stripping) exactly the empty object and
the literal `123`, both of which `json.loads` accepts, and rejects every
other string these developments feed it, each of which `json.loads` rejects
(they contain stray text around or instead of a JSON value). -/
def demoLoads : List Char → Option Unit := fun s =>
  if pystrip s = ['\x7b', '\x7d'] ∨ pystrip s = ['1', '2', '3'] then some ()
  else none

/-- A reply holding one well-formed object span followed by prose. -/
def replyBraceObject : List Char := "\x7b\x7d done".toList

/-- A reply whose first-brace/last-brace span is not valid JSON even though
its fenced block labeled as JSON is. -/
def replyBraceThenFence : List Char := "\x7bx\x7d ```json\n\x7b\x7d\n```".toList

/-- A brace-free reply with a labeled fence, no closing fence. -/
def replyLabeledNoClose : List Char := "```json 123".toList

/-- A brace-free reply with a closed labeled fence and trailing prose. -/
def replyLabeledClosed : List Char := "```json\n123\n``` because".toList

/-- A brace-free reply with a generic fenced block and trailing prose. -/
def replyGenericFence : List Char := "see ``` 123 ``` after".toList

/-- A reply in which no strategy can locate JSON. -/
def replyNoJson : List Char := "no json here".toList

/-- A concrete environment for the witnesses: valid Groq key, no ElevenLabs
key, storage reads succeed, the model replies `replyNoJson`, speech and
storage writes raise. -/
def envParse : Env Unit where
  groqApiKey := some ['k']
  elevenApiKey := none
  storageHouses := .val []
  post := .val replyNoJson
  loads := demoLoads
  tts := fun _ => .exn (.otherError [])
  insert := fun _ _ _ _ => .exn (.otherError [])

/-! ## Claims -/

/-- C3 (confirmed): for every model reply whose span from the first opening
brace to the last closing brace exists and parses as JSON, the parser
returns exactly that span's parse as the structured recommendation data and
everything after the closing brace, stripped of surrounding whitespace, as
the explanation text. -/
theorem query_groq_parse_brace_span_success {J : Type}
    (loads : List Char → Option J) (s : List Char) (j : J)
    (h1 : pyfind s '\x7b' ≥ 0)
    (h2 : pyrfind s '\x7d' + 1 > pyfind s '\x7b')
    (h3 : loads (brace_span s) = some j) :
    query_groq_parse loads s = .ok j (brace_explanation s) := by
  unfold query_groq_parse
  rw [if_pos ⟨h1, h2⟩, h3]

/-- Witness for C3 at the reply `replyBraceObject`: the span is the empty
object and the explanation is the trailing word. -/
theorem query_groq_parse_brace_span_success_witness :
    pyfind replyBraceObject '\x7b' ≥ 0 ∧
    pyrfind replyBraceObject '\x7d' + 1 > pyfind replyBraceObject '\x7b' ∧
    demoLoads (brace_span replyBraceObject) = some () ∧
    query_groq_parse demoLoads replyBraceObject =
      .ok () ("done".toList) := by
  refine ⟨by decide, by decide, by decide, ?_⟩
  have h := query_groq_parse_brace_span_success demoLoads replyBraceObject ()
    (by decide) (by decide) (by decide)
  rw [h]
  decide

/-- C1 (counterexample): at `replyBraceThenFence`, the reply has an opening
brace and a later closing brace, the span between them is not valid JSON,
and the fenced block labeled as JSON holds valid JSON — yet the parser
reports a parse failure instead of falling back to the fenced block, so the
claim as stated is false. -/
theorem query_groq_parse_no_fence_fallback_cex :
    (pyfind replyBraceThenFence '\x7b' ≥ 0 ∧
     pyrfind replyBraceThenFence '\x7d' + 1 > pyfind replyBraceThenFence '\x7b') ∧
    demoLoads (brace_span replyBraceThenFence) = none ∧
    hasSubstr replyBraceThenFence fenceJson = true ∧
    demoLoads (labeled_fence_content replyBraceThenFence) = some () ∧
    query_groq_parse demoLoads replyBraceThenFence =
      .parseError replyBraceThenFence 500 := by
  decide

/-- C1 (amended): for every model reply that contains an opening brace and
a later closing brace, if the span from the first opening brace to the last
closing brace is not valid JSON the requester reports a parse failure
carrying the raw text immediately; the fenced-block strategies are never
consulted in that case. -/
theorem query_groq_parse_brace_span_failure_is_fatal {J : Type}
    (loads : List Char → Option J) (s : List Char)
    (h1 : pyfind s '\x7b' ≥ 0)
    (h2 : pyrfind s '\x7d' + 1 > pyfind s '\x7b')
    (h3 : loads (brace_span s) = none) :
    query_groq_parse loads s = .parseError s 500 := by
  unfold query_groq_parse
  rw [if_pos ⟨h1, h2⟩, h3]

/-- Witness for the amended C1 at `replyBraceThenFence`. -/
theorem query_groq_parse_brace_span_failure_is_fatal_witness :
    pyfind replyBraceThenFence '\x7b' ≥ 0 ∧
    pyrfind replyBraceThenFence '\x7d' + 1 > pyfind replyBraceThenFence '\x7b' ∧
    demoLoads (brace_span replyBraceThenFence) = none ∧
    query_groq_parse demoLoads replyBraceThenFence =
      .parseError replyBraceThenFence 500 :=
  ⟨by decide, by decide, by decide,
   query_groq_parse_brace_span_failure_is_fatal demoLoads replyBraceThenFence
     (by decide) (by decide) (by decide)⟩

/-- C4 (confirmed): whenever the Groq call succeeds and returns a reply on
which no strategy the code attempts yields valid JSON — the brace span, when
one exists, does not parse, and neither fenced block's interior, when
present, parses — `query_groq` returns the parse-error payload with status
500 whose raw-response field is the original reply, character for
character. -/
theorem query_groq_unparseable_reply_returns_raw {J : Type} (env : Env J)
    (sentences : List (List Char)) (k : List Char) (d r : List Char)
    (hk : env.groqApiKey = some k)
    (hd : env.storageHouses = .val d)
    (hp : env.post = .val r)
    (hb : pyfind r '\x7b' ≥ 0 ∧ pyrfind r '\x7d' + 1 > pyfind r '\x7b' →
      env.loads (brace_span r) = none)
    (hj : hasSubstr r fenceJson = true → env.loads (labeled_fence_content r) = none)
    (hf : hasSubstr r fence = true → env.loads (any_fence_content r) = none) :
    (query_groq env sentences).1 =
      .failure ("Failed to parse model response".toList) (some r) 500 := by
  unfold query_groq
  rw [hk, hd, hp]
  simp only [load_housing_data, Option.isNone_some, Bool.false_eq_true, if_false]
  rw [query_groq_parse_none env.loads r hb hj hf]

/-- Witness for C4: the reply `replyNoJson` has no braces and no fences, so
every strategy hypothesis holds vacuously or by evaluation. -/
theorem query_groq_unparseable_reply_returns_raw_witness :
    (query_groq envParse [['h', 'i']]).1 =
      .failure ("Failed to parse model response".toList) (some replyNoJson) 500 :=
  query_groq_unparseable_reply_returns_raw envParse [['h', 'i']] ['k'] [] replyNoJson
    rfl rfl rfl (by decide) (by decide) (by decide)

/-- C7 (confirmed): for a model reply containing no braces, the parser
extracts the interior of the fenced block labeled as JSON when one is
present, and otherwise the interior of the first generic fenced block, as
the structured data (when that interior parses as JSON). -/
theorem query_groq_parse_fenced_strategies {J : Type}
    (loads : List Char → Option J) (s : List Char) (j : J)
    (hb1 : '\x7b' ∉ s) (hb2 : '\x7d' ∉ s) :
    (hasSubstr s fenceJson = true → loads (labeled_fence_content s) = some j →
      query_groq_parse loads s = .ok j (fence_explanation s)) ∧
    (hasSubstr s fenceJson = false → hasSubstr s fence = true →
      loads (any_fence_content s) = some j →
      query_groq_parse loads s = .ok j (fence_explanation s)) := by
  have hfind : pyfind s '\x7b' = -1 := pyfind_eq_neg_one hb1
  have hcond : ¬(pyfind s '\x7b' ≥ 0 ∧ pyrfind s '\x7d' + 1 > pyfind s '\x7b') := by
    rw [hfind]
    rintro ⟨h, -⟩
    exact absurd h (by decide)
  constructor
  · intro hjson hl
    unfold query_groq_parse
    rw [if_neg hcond, if_pos hjson, hl]
  · intro hnj hfen hl
    unfold query_groq_parse
    rw [if_neg hcond, if_neg (by rw [hnj]; exact Bool.false_ne_true), if_pos hfen, hl]

/-- Witness for C7: the labeled strategy at `replyLabeledClosed` and the
generic strategy at `replyGenericFence`, both brace-free. -/
theorem query_groq_parse_fenced_strategies_witness :
    ('\x7b' ∉ replyLabeledClosed ∧ hasSubstr replyLabeledClosed fenceJson = true ∧
      demoLoads (labeled_fence_content replyLabeledClosed) = some () ∧
      query_groq_parse demoLoads replyLabeledClosed =
        .ok () (fence_explanation replyLabeledClosed)) ∧
    ('\x7b' ∉ replyGenericFence ∧ hasSubstr replyGenericFence fenceJson = false ∧
      hasSubstr replyGenericFence fence = true ∧
      demoLoads (any_fence_content replyGenericFence) = some () ∧
      query_groq_parse demoLoads replyGenericFence =
        .ok () (fence_explanation replyGenericFence)) := by
  refine ⟨⟨by decide, by decide, by decide, ?_⟩, ⟨by decide, by decide, by decide, by decide, ?_⟩⟩
  · exact (query_groq_parse_fenced_strategies demoLoads replyLabeledClosed ()
      (by decide) (by decide)).1 (by decide) (by decide)
  · exact (query_groq_parse_fenced_strategies demoLoads replyGenericFence ()
      (by decide) (by decide)).2 (by decide) (by decide) (by decide)

/-- C8 (confirmed): when the brace strategy does not apply and a
fenced-block strategy produces the structured data, a reply containing
fewer than two fence markers yields the empty explanation text. -/
theorem query_groq_parse_few_fences_empty_explanation {J : Type}
    (loads : List Char → Option J) (s : List Char) (j : J) (e : List Char)
    (hno : ¬(pyfind s '\x7b' ≥ 0 ∧ pyrfind s '\x7d' + 1 > pyfind s '\x7b'))
    (hc : countOcc s fence < 2)
    (hok : query_groq_parse loads s = .ok j e) :
    e = [] := by
  unfold query_groq_parse at hok
  rw [if_neg hno] at hok
  have hexp := fence_explanation_eq_nil hc
  by_cases h1 : hasSubstr s fenceJson = true
  · rw [if_pos h1] at hok
    cases hl : loads (labeled_fence_content s) with
    | some jv =>
        rw [hl] at hok
        injection hok with hj he
        rw [← he]
        exact hexp
    | none =>
        rw [hl] at hok
        exact absurd hok (by simp)
  · rw [if_neg h1] at hok
    by_cases h2 : hasSubstr s fence = true
    · rw [if_pos h2] at hok
      cases hl : loads (any_fence_content s) with
      | some jv =>
          rw [hl] at hok
          injection hok with hj he
          rw [← he]
          exact hexp
      | none =>
          rw [hl] at hok
          exact absurd hok (by simp)
    · rw [if_neg h2] at hok
      exact absurd hok (by simp)

/-- Witness for C8 at `replyLabeledNoClose`, which holds exactly one fence
marker: its explanation is forced to be empty. -/
theorem query_groq_parse_few_fences_empty_explanation_witness :
    (¬(pyfind replyLabeledNoClose '\x7b' ≥ 0 ∧
       pyrfind replyLabeledNoClose '\x7d' + 1 > pyfind replyLabeledNoClose '\x7b')) ∧
    countOcc replyLabeledNoClose fence < 2 ∧
    query_groq_parse demoLoads replyLabeledNoClose =
      .ok () (fence_explanation replyLabeledNoClose) ∧
    fence_explanation replyLabeledNoClose = [] :=
  ⟨by decide, by decide, by decide,
   query_groq_parse_few_fences_empty_explanation demoLoads replyLabeledNoClose ()
     (fence_explanation replyLabeledNoClose) (by decide) (by decide) (by decide)⟩

/-- C2 (code bug): when the storage read raises, `load_housing_data` does
NOT return the hardcoded fallback sequence — because `DUMMY_HOUSING_DATA`
is commented out (lines 321-475) the `except` branch raises `NameError`,
so the loader propagates an exception to its caller and returns no value at
all. -/
theorem load_housing_data_propagates_exception (D : Type) (e : PyExn) :
    load_housing_data (PyResult.exn e : PyResult D) =
      .exn (.nameError ("name DUMMY_HOUSING_DATA is not defined".toList)) ∧
    ∀ d : D, load_housing_data (PyResult.exn e : PyResult D) ≠ .val d := by
  refine ⟨rfl, fun d h => ?_⟩
  exact PyResult.noConfusion h

/-- C5 (confirmed): a request whose `sentences` field is missing or is the
empty list gets the 400 error payload back, and the handler makes no
external call at all (the call log is empty; in particular no data load —
that only ever happens inside `query_groq` — no model query and no speech
synthesis). -/
theorem recommend_housing_empty_sentences {J : Type} (env : Env J)
    (sentencesField : Option (List (List Char)))
    (h : sentencesField = none ∨ sentencesField = some []) :
    recommend_housing env sentencesField =
      (⟨.errorBody ("No input sentences provided".toList) none, 400⟩, []) := by
  rcases h with h | h <;> subst h <;> rfl

/-- Witness for C5: both the missing-field and the empty-list request, in
the concrete environment `envParse`. -/
theorem recommend_housing_empty_sentences_witness :
    recommend_housing envParse none =
      (⟨.errorBody ("No input sentences provided".toList) none, 400⟩, []) ∧
    recommend_housing envParse (some []) =
      (⟨.errorBody ("No input sentences provided".toList) none, 400⟩, []) :=
  ⟨recommend_housing_empty_sentences envParse none (Or.inl rfl),
   recommend_housing_empty_sentences envParse (some []) (Or.inr rfl)⟩

/-- C9 (confirmed): when the model query succeeds, no failure of speech
synthesis (missing credential or request error, i.e. `generate_audio`
returns nothing) and no failure of the storage write (i.e.
`store_response_in_db` returns no id) ever fails the request: whatever
those two outcomes are, the handler answers 200 with the combined payload,
whose audio field is whatever audio was produced and whose record-id field
is whatever the write returned; in particular, when synthesis failed the
audio field is null, and when the write failed the record-id field is
null, each independently of the other. -/
theorem recommend_housing_degrades_gracefully {J : Type} (env : Env J)
    (s : List (List Char)) (j : J) (e : List Char) (evs : List CallEvent)
    (hs : s ≠ [])
    (hq : query_groq env s = (.success j e, evs)) :
    (recommend_housing env (some s)).1 =
      ⟨.okBody j e
        ((generate_audio env.elevenApiKey env.tts e).map AudioSuccess.audio_base64)
        (store_response_in_db (env.insert (joinSpaces s) j e
          ((generate_audio env.elevenApiKey env.tts e).map AudioSuccess.audio_path))),
        200⟩ ∧
    (generate_audio env.elevenApiKey env.tts e = none →
      (recommend_housing env (some s)).1 =
        ⟨.okBody j e none
          (store_response_in_db (env.insert (joinSpaces s) j e none)), 200⟩) ∧
    (store_response_in_db (env.insert (joinSpaces s) j e
        ((generate_audio env.elevenApiKey env.tts e).map AudioSuccess.audio_path)) =
          none →
      (recommend_housing env (some s)).1 =
        ⟨.okBody j e
          ((generate_audio env.elevenApiKey env.tts e).map AudioSuccess.audio_base64)
          none, 200⟩) := by
  have hgen : (recommend_housing env (some s)).1 =
      ⟨.okBody j e
        ((generate_audio env.elevenApiKey env.tts e).map AudioSuccess.audio_base64)
        (store_response_in_db (env.insert (joinSpaces s) j e
          ((generate_audio env.elevenApiKey env.tts e).map AudioSuccess.audio_path))),
        200⟩ := by
    unfold recommend_housing
    rw [if_neg (by simp [List.isEmpty_iff, hs])]
    rw [Option.getD_some, hq]
  refine ⟨hgen, fun ha => ?_, fun hst => ?_⟩
  · rw [hgen, ha]
    simp only [Option.map_none']
  · rw [hgen, hst]

/-- Like `envParse` but with a parseable model reply, so the model query
succeeds while speech synthesis (no credential) and the storage write
(raises) both fail. -/
def envGraceful : Env Unit where
  groqApiKey := some ['k']
  elevenApiKey := none
  storageHouses := .val []
  post := .val replyBraceObject
  loads := demoLoads
  tts := fun _ => .exn (.otherError [])
  insert := fun _ _ _ _ => .exn (.otherError [])

/-- Like `envGraceful` but speech synthesis fails (no credential) while the
storage write succeeds with record id 7. -/
def envSpeechFailsOnly : Env Unit where
  groqApiKey := some ['k']
  elevenApiKey := none
  storageHouses := .val []
  post := .val replyBraceObject
  loads := demoLoads
  tts := fun _ => .exn (.otherError [])
  insert := fun _ _ _ _ => .val (some 7)

/-- Like `envGraceful` but speech synthesis succeeds (credential present,
call returns audio) while the storage write raises. -/
def envStoreFailsOnly : Env Unit where
  groqApiKey := some ['k']
  elevenApiKey := some ['e']
  storageHouses := .val []
  post := .val replyBraceObject
  loads := demoLoads
  tts := fun _ => .val ⟨['b'], ['p']⟩
  insert := fun _ _ _ _ => .exn (.otherError [])

/-- Witness for C9, covering both failures at once (`envGraceful`), only
speech failing (`envSpeechFailsOnly`, record id kept), and only the storage
write failing (`envStoreFailsOnly`, audio kept): in each, the query
succeeds and the handler answers 200 with the expected combined payload. -/
theorem recommend_housing_degrades_gracefully_witness :
    generate_audio envGraceful.elevenApiKey envGraceful.tts ("done".toList) = none ∧
    store_response_in_db
      (envGraceful.insert (joinSpaces [['h', 'i']]) () ("done".toList) none) = none ∧
    (recommend_housing envGraceful (some [['h', 'i']])).1 =
      ⟨.okBody () ("done".toList) none none, 200⟩ ∧
    (recommend_housing envSpeechFailsOnly (some [['h', 'i']])).1 =
      ⟨.okBody () ("done".toList) none (some 7), 200⟩ ∧
    (recommend_housing envStoreFailsOnly (some [['h', 'i']])).1 =
      ⟨.okBody () ("done".toList) (some ['b']) none, 200⟩ := by
  refine ⟨by decide, by decide, ?_, ?_, ?_⟩
  · have h := (recommend_housing_degrades_gracefully envGraceful [['h', 'i']] ()
      ("done".toList) [CallEvent.storageRead, CallEvent.groqPost]
      (by decide) (by decide)).2.1 (by decide)
    rw [h]
    decide
  · have h := (recommend_housing_degrades_gracefully envSpeechFailsOnly [['h', 'i']] ()
      ("done".toList) [CallEvent.storageRead, CallEvent.groqPost]
      (by decide) (by decide)).2.1 (by decide)
    rw [h]
    decide
  · have h := (recommend_housing_degrades_gracefully envStoreFailsOnly [['h', 'i']] ()
      ("done".toList) [CallEvent.storageRead, CallEvent.groqPost]
      (by decide) (by decide)).2.2 (by decide)
    rw [h]
    decide

/-! ## Replicate computation lemmas for the truncation claims -/

theorem dropWhile_replicate_of_neg {α : Type} (p : α → Bool) (a : α) (n : Nat)
    (h : p a = false) :
    List.dropWhile p (List.replicate n a) = List.replicate n a := by
  cases n with
  | zero => rfl
  | succ m => rw [List.replicate_succ, List.dropWhile_cons_of_neg (by simp [h])]

theorem pystrip_replicate_a (n : Nat) :
    pystrip (List.replicate n 'a') = List.replicate n 'a' := by
  unfold pystrip
  rw [dropWhile_replicate_of_neg _ _ _ (by decide), List.reverse_replicate,
      dropWhile_replicate_of_neg _ _ _ (by decide), List.reverse_replicate]

theorem clean_text_replicate_a (n : Nat) :
    generate_audio_clean_text (List.replicate n 'a') = List.replicate n 'a' := by
  unfold generate_audio_clean_text pyreplaceChar
  simp only [List.map_replicate]
  rw [show ((if ('a' : Char) = '\n' then ' ' else 'a') : Char) = 'a' from by decide]
  exact pystrip_replicate_a n

/-- An explanation text of length 5002: a newline followed by 5001 `a`s.
Its normalized form has length 5001. -/
def overlongExplanation : List Char := '\n' :: List.replicate 5001 'a'

theorem clean_text_overlong :
    generate_audio_clean_text overlongExplanation = List.replicate 5001 'a' := by
  have h1 : pyreplaceChar overlongExplanation '\n' ' ' =
      ' ' :: List.replicate 5001 'a' := by
    unfold overlongExplanation pyreplaceChar
    simp only [List.map_cons, List.map_replicate]
    rw [if_pos trivial,
        show ((if ('a' : Char) = '\n' then ' ' else 'a') : Char) = 'a' from by decide]
  unfold generate_audio_clean_text
  rw [h1]
  unfold pystrip
  rw [List.dropWhile_cons_of_pos (by decide),
      dropWhile_replicate_of_neg _ _ _ (by decide), List.reverse_replicate,
      dropWhile_replicate_of_neg _ _ _ (by decide), List.reverse_replicate]

theorem submitted_overlong :
    generate_audio_submitted_text overlongExplanation =
      List.replicate 5000 'a' ++ ellipsis := by
  unfold generate_audio_submitted_text
  rw [clean_text_overlong, List.length_replicate, if_pos (by norm_num),
      List.take_replicate, show (5000 : ℕ) ⊓ 5001 = 5000 from by decide]

/-- C6 (counterexample): `overlongExplanation` has length 5002, exceeding
the threshold, yet the text submitted for synthesis is NOT that text's
5000-character prefix plus the ellipsis — the prefix is taken from the
normalized text, whose leading newline became a stripped space. -/
theorem generate_audio_truncation_cex :
    5000 < overlongExplanation.length ∧
    generate_audio_submitted_text overlongExplanation ≠
      overlongExplanation.take 5000 ++ ellipsis := by
  constructor
  · unfold overlongExplanation
    rw [List.length_cons, List.length_replicate]
    norm_num
  · rw [submitted_overlong]
    unfold overlongExplanation
    rw [show (5000 : ℕ) = 4999 + 1 from by norm_num, List.replicate_succ,
        List.take_succ_cons, List.cons_append, List.cons_append]
    intro h
    injection h with h1 h2
    exact absurd h1 (by decide)

/-- C6 (amended): for every explanation text whose NORMALIZED form
(newlines replaced by spaces, then stripped) exceeds the 5000-character
threshold, the text submitted for synthesis is exactly the normalized
text's 5000-character prefix plus the ellipsis marker, and its length is
bounded by the threshold plus the marker length. -/
theorem generate_audio_truncates_clean_text (text : List Char)
    (h : 5000 < (generate_audio_clean_text text).length) :
    generate_audio_submitted_text text =
      (generate_audio_clean_text text).take 5000 ++ ellipsis ∧
    (generate_audio_submitted_text text).length ≤ 5000 + ellipsis.length := by
  have he : generate_audio_submitted_text text =
      (generate_audio_clean_text text).take 5000 ++ ellipsis := by
    unfold generate_audio_submitted_text
    rw [if_pos h]
  refine ⟨he, ?_⟩
  rw [he, List.length_append, List.length_take, min_eq_left (le_of_lt h)]

/-- Witness for the amended C6 at 5001 `a`s. -/
theorem generate_audio_truncates_clean_text_witness :
    5000 < (generate_audio_clean_text (List.replicate 5001 'a')).length ∧
    (generate_audio_submitted_text (List.replicate 5001 'a') =
      (generate_audio_clean_text (List.replicate 5001 'a')).take 5000 ++ ellipsis ∧
     (generate_audio_submitted_text (List.replicate 5001 'a')).length ≤
       5000 + ellipsis.length) := by
  have h : 5000 < (generate_audio_clean_text (List.replicate 5001 'a')).length := by
    rw [clean_text_replicate_a, List.length_replicate]
    norm_num
  exact ⟨h, generate_audio_truncates_clean_text (List.replicate 5001 'a') h⟩

/-- C10 (confirmed): the speech synthesizer first normalizes the
explanation — every newline becomes a space, then leading and trailing
whitespace is stripped — and only then applies the 5000-character check, so
the submitted text never contains a newline and any truncated prefix is
taken from the normalized text. -/
theorem generate_audio_normalizes_before_length_check (text : List Char) :
    generate_audio_clean_text text = pystrip (pyreplaceChar text '\n' ' ') ∧
    generate_audio_submitted_text text =
      (if 5000 < (generate_audio_clean_text text).length then
        (generate_audio_clean_text text).take 5000 ++ ellipsis
      else generate_audio_clean_text text) ∧
    '\n' ∉ generate_audio_submitted_text text := by
  refine ⟨rfl, rfl, ?_⟩
  intro hmem
  unfold generate_audio_submitted_text at hmem
  by_cases hlen : 5000 < (generate_audio_clean_text text).length
  · rw [if_pos hlen] at hmem
    rcases List.mem_append.mp hmem with h1 | h1
    · exact newline_not_mem_clean_text text (List.take_subset _ _ h1)
    · exact absurd h1 (by decide)
  · rw [if_neg hlen] at hmem
    exact newline_not_mem_clean_text text hmem
